import Mathlib

/-!
Shallow embedding of the bot lifecycle manager of the dashboard server
(`src/bot-manager.ts`) together with its in-memory storage collaborator
(`src/storage.ts`) and the entity shapes of `src/schema.ts`.

Modelling conventions:
* JavaScript `Map<number, V>` values become association lists
  `List (Nat × V)` with JS `Map` semantics (`set` replaces the entry in
  place when the key is present, otherwise appends; `delete` removes the
  entry; real JS maps hold at most one entry per key, expressed here as a
  `Nodup` hypothesis on the key list where it matters).
* `async` results become plain values; promise rejections of the Discord
  client (`login`, `destroy`) and the gateway health probe (`ws.ping`)
  are environment oracles threaded through an `Env` record.
* The storage layer (`MemStorage`) never throws, so every `try/catch`
  around storage calls is dead and the model is total.
* Ghost fields record observable events the claims speak about:
  `connectionsCreated` counts `new Client(...)` constructions inside
  `startBot`, and `createdLogs` is the unbounded trace of log entries
  handed to `storage.createLog` (the stored `logs` list is the bounded
  one the source keeps).
-/

namespace Website

/-- Bot status enum of `schema.ts` (`BotStatus`). -/
inductive BotStatus where
  | ONLINE
  | OFFLINE
  | WARNING
deriving DecidableEq, Repr

/-- Persisted bot record (`bots` table of `schema.ts`); the command
string field and `lastStarted` are carried nowhere by the lifecycle
logic under study and are omitted. `token` is a JS string; the manager
treats the empty string as falsy ("token not found"). -/
structure Bot where
  id : Nat
  name : String
  token : String
  userId : Nat
  isRunning : Bool
  memory : Int
  uptime : Int
  serverCount : Int
  commandCount : Int
  botType : Option String
  iconType : Option String
  status : String
  permissions : String
  inviteConfig : String
deriving DecidableEq, Repr

/-- Persisted log entry (`logs` table of `schema.ts`). -/
structure Log where
  id : Nat
  botId : Option Int
  timestamp : Nat
  level : String
  message : String
deriving DecidableEq, Repr

/-- Persisted metric sample (`metrics` table of `schema.ts`); the six
numeric columns are nullable integers. -/
structure Metric where
  id : Nat
  timestamp : Nat
  cpuUsage : Option Int
  memoryUsage : Option Int
  memoryTotal : Option Int
  diskUsage : Option Int
  diskTotal : Option Int
  networkUsage : Option Int
deriving DecidableEq, Repr

/-- Insert shape for logs (`insertLogSchema`): `botId` and `level` are
optional, `message` required. -/
structure InsertLog where
  botId : Option Int
  level : Option String
  message : String
deriving DecidableEq, Repr

/-- Insert shape for metrics (`insertMetricsSchema`): all six numeric
fields optional. -/
structure InsertMetric where
  cpuUsage : Option Int
  memoryUsage : Option Int
  memoryTotal : Option Int
  diskUsage : Option Int
  diskTotal : Option Int
  networkUsage : Option Int
deriving DecidableEq, Repr

/-- JS coercion `x || null` for a nullable number: `null`, `undefined`
and `0` are falsy and collapse to `null`. -/
def numOrNull (x : Option Int) : Option Int :=
  match x with
  | some v => if v = 0 then none else some v
  | none => none

/-- JS coercion `x || d` for an optional string: `undefined` and the
empty string are falsy and fall back to the default. -/
def strOrDefault (x : Option String) (d : String) : String :=
  match x with
  | some s => if s = "" then d else s
  | none => d

/-- Lookup in a JS `Map` keyed by numbers (`Map.prototype.get`). -/
def mapFind? {α : Type} : List (Nat × α) → Nat → Option α
  | [], _ => none
  | (k', v) :: rest, k => if k' = k then some v else mapFind? rest k

/-- JS `Map.prototype.set`: replace the entry in place when the key is
present, otherwise append at the end (insertion order). -/
def mapSet {α : Type} : List (Nat × α) → Nat → α → List (Nat × α)
  | [], k, v => [(k, v)]
  | (k', v') :: rest, k, v =>
      if k' = k then (k, v) :: rest else (k', v') :: mapSet rest k v

/-- JS `Map.prototype.delete`: remove the entry for the key (a real JS
map holds at most one). -/
def mapDelete {α : Type} : List (Nat × α) → Nat → List (Nat × α)
  | [], _ => []
  | (k', v') :: rest, k =>
      if k' = k then rest else (k', v') :: mapDelete rest k

/-- State of the `MemStorage` collaborator of `storage.ts` restricted to
the collections the lifecycle manager touches (users are not involved
in any claim). -/
structure MemStorage where
  bots : List (Nat × Bot)
  logs : List Log
  metricsHistory : List Metric
  botCurrentId : Nat
  logCurrentId : Nat
  metricsCurrentId : Nat
deriving DecidableEq, Repr

namespace MemStorage

/-- `MemStorage.getBot`. -/
def getBot (s : MemStorage) (id : Nat) : Option Bot :=
  mapFind? s.bots id

/-- `MemStorage.getAllBots` (insertion-order values of the map). -/
def getAllBots (s : MemStorage) : List Bot :=
  s.bots.map Prod.snd

/-- Partial bot update (`Partial<Bot>` as used by `updateBot` callers in
`bot-manager.ts`: only these fields ever appear in a patch). -/
structure BotPatch where
  isRunning : Option Bool := none
  status : Option String := none
  serverCount : Option Int := none
  commandCount : Option Int := none
  memory : Option Int := none
  uptime : Option Int := none
deriving DecidableEq, Repr

/-- JS spread merge `{ ...bot, ...data }`: fields present in the patch
override the record. -/
def applyPatch (b : Bot) (d : BotPatch) : Bot :=
  { b with
    isRunning := d.isRunning.getD b.isRunning
    status := d.status.getD b.status
    serverCount := d.serverCount.getD b.serverCount
    commandCount := d.commandCount.getD b.commandCount
    memory := d.memory.getD b.memory
    uptime := d.uptime.getD b.uptime }

/-- `MemStorage.updateBot`: merge the patch into the stored record when
the id is present, otherwise return `undefined` and change nothing. -/
def updateBot (s : MemStorage) (id : Nat) (data : BotPatch) :
    Option Bot × MemStorage :=
  match mapFind? s.bots id with
  | none => (none, s)
  | some bot =>
      let updatedBot := applyPatch bot data
      (some updatedBot, { s with bots := mapSet s.bots id updatedBot })

/-- `MemStorage.createLog`: assign the next id, coerce falsy `botId` to
null and falsy `level` to "info", push, then trim to the most recent
1000 entries (`this.logs.slice(-1000)`). -/
def createLog (s : MemStorage) (insertLog : InsertLog) (now : Nat) :
    Log × MemStorage :=
  let log : Log :=
    { id := s.logCurrentId
      botId := numOrNull insertLog.botId
      timestamp := now
      level := strOrDefault insertLog.level "info"
      message := insertLog.message }
  let logs := s.logs ++ [log]
  let logs := if logs.length > 1000 then logs.drop (logs.length - 1000) else logs
  (log, { s with logs := logs, logCurrentId := s.logCurrentId + 1 })

/-- `MemStorage.getLatestMetrics`: undefined on empty history, else the
last element (`metricsHistory[metricsHistory.length - 1]`). -/
def getLatestMetrics (s : MemStorage) : Option Metric :=
  if s.metricsHistory.isEmpty then none else s.metricsHistory.getLast?

/-- `MemStorage.createMetrics`: assign the next id, coerce each falsy
numeric field to null (`insertMetrics.x || null`), push, then trim to
the most recent 100 samples (`metricsHistory.slice(-100)`). -/
def createMetrics (s : MemStorage) (insertMetrics : InsertMetric) (now : Nat) :
    Metric × MemStorage :=
  let metric : Metric :=
    { id := s.metricsCurrentId
      timestamp := now
      cpuUsage := numOrNull insertMetrics.cpuUsage
      memoryUsage := numOrNull insertMetrics.memoryUsage
      memoryTotal := numOrNull insertMetrics.memoryTotal
      diskUsage := numOrNull insertMetrics.diskUsage
      diskTotal := numOrNull insertMetrics.diskTotal
      networkUsage := numOrNull insertMetrics.networkUsage }
  let metricsHistory := s.metricsHistory ++ [metric]
  let metricsHistory :=
    if metricsHistory.length > 100 then
      metricsHistory.drop (metricsHistory.length - 100)
    else metricsHistory
  (metric,
   { s with metricsHistory := metricsHistory
            metricsCurrentId := s.metricsCurrentId + 1 })

end MemStorage

/-- In-memory connection handle (`BotProcess` interface of
`bot-manager.ts`). `hasDiscordClient` models presence of the optional
`discordClient` field. -/
structure BotProcess where
  botId : Nat
  hasDiscordClient : Bool
  status : BotStatus
  startTime : Option Nat
  pid : Option Nat
  memory : Option Nat
deriving DecidableEq, Repr

/-- Environment oracle for the effects the manager awaits: whether
`client.login(token)` resolves for a given bot id, whether
`discordClient.destroy()` resolves, the gateway ping reading
(`client.ws.ping`, sentinel -1 when unreachable), and the clock. -/
structure Env where
  loginOk : Nat → Bool
  destroyOk : Nat → Bool
  wsPing : Nat → Int
  now : Nat

/-- State owned by the `BotManager` class: the storage collaborator plus
the `botProcesses` map. `connectionsCreated` is a ghost counter of
`new Client(...)` constructions in `startBot`; `createdLogs` is the
ghost unbounded trace of entries handed to `storage.createLog`. -/
structure BotManager where
  storage : MemStorage
  botProcesses : List (Nat × BotProcess)
  connectionsCreated : Nat
  createdLogs : List Log
deriving DecidableEq, Repr

namespace BotManager

/-- `BotManager.createLog`: forward to `storage.createLog`, recording
the created entry in the ghost trace. -/
def createLog (env : Env) (m : BotManager) (logData : InsertLog) : BotManager :=
  let (log, st) := m.storage.createLog logData env.now
  { m with storage := st, createdLogs := m.createdLogs ++ [log] }

/-- Status string as persisted: the enum values of `schema.ts` are the
strings "ONLINE", "OFFLINE", "WARNING". -/
def statusText : BotStatus → String
  | .ONLINE => "ONLINE"
  | .OFFLINE => "OFFLINE"
  | .WARNING => "WARNING"

/-- `BotManager.updateBotStatus`: persist the status string and
broadcast (broadcasting sends snapshots to subscribers and does not
change manager state). -/
def updateBotStatus (m : BotManager) (botId : Nat) (status : BotStatus) :
    BotManager :=
  { m with
    storage := (m.storage.updateBot botId { status := some (statusText status) }).2 }

/-- `BotManager.updateBotMetrics`: forward a partial record to
`storage.updateBot` (its try/catch is dead since `MemStorage` never
throws). -/
def updateBotMetrics (m : BotManager) (botId : Nat) (metrics : MemStorage.BotPatch) :
    BotManager :=
  { m with storage := (m.storage.updateBot botId metrics).2 }

/-- `BotManager.startBot`. Order of checks follows the source: fetch the
record and fail on a falsy token, then the idempotence check on
`botProcesses`, then client construction, event-handler registration,
and `login`; on successful login the handle is registered with status
ONLINE. A login rejection is caught, logged as an error, and surfaced
as `false`. The error text interpolates the platform error message; the
model keeps the source's fallback text "Unknown error". -/
def startBot (env : Env) (m : BotManager) (botId : Nat) : Bool × BotManager :=
  match m.storage.getBot botId with
  | none =>
      (false, createLog env m { botId := some botId, level := some "error",
                                message := "Bot token not found" })
  | some botData =>
      if botData.token = "" then
        (false, createLog env m { botId := some botId, level := some "error",
                                  message := "Bot token not found" })
      else if (mapFind? m.botProcesses botId).isSome then
        (true, createLog env m { botId := some botId, level := some "warning",
                                 message := "Bot is already running" })
      else
        let m1 := { m with connectionsCreated := m.connectionsCreated + 1 }
        if env.loginOk botId then
          let proc : BotProcess :=
            { botId := botId
              hasDiscordClient := true
              status := .ONLINE
              startTime := some env.now
              pid := some 1
              memory := some 100 }
          (true, { m1 with botProcesses := mapSet m1.botProcesses botId proc })
        else
          (false, createLog env m1 { botId := some botId, level := some "error",
                                     message := "Failed to start: Unknown error" })

/-- `BotManager.stopBot`: `false` with no mutation when there is no
handle. Otherwise `destroy()` the client inside the try block; when it
throws, control jumps to the catch (error log, `false`) and the handle
removal and OFFLINE update in the remainder of the try block are
skipped. -/
def stopBot (env : Env) (m : BotManager) (botId : Nat) : Bool × BotManager :=
  match mapFind? m.botProcesses botId with
  | none => (false, m)
  | some botProcess =>
      if botProcess.hasDiscordClient ∧ env.destroyOk botId = false then
        (false, createLog env m { botId := some botId, level := some "error",
                                  message := "Failed to stop: Unknown error" })
      else
        let m1 := { m with botProcesses := mapDelete m.botProcesses botId }
        (true, updateBotStatus m1 botId .OFFLINE)

/-- `BotManager.restartBot`: sequential `stopBot` then `startBot`,
ignoring the stop result. -/
def restartBot (env : Env) (m : BotManager) (botId : Nat) : Bool × BotManager :=
  startBot env (stopBot env m botId).2 botId

/-- Body of the ping-mechanism interval of `initializePingMechanism`
for one fetched bot record. The handle (`botProcess`) is captured once
at the top and reused by all three rules, exactly as in the source;
the `catch (restartError)` branch is unreachable because `stopBot` and
`startBot` absorb every failure, so `restartBot` never rejects and the
"success" log is appended unconditionally after it. -/
def pingMechanismStep (env : Env) (m : BotManager) (bot : Bot) : BotManager :=
  let botProcess := mapFind? m.botProcesses bot.id
  let m :=
    if bot.isRunning ∧
        (botProcess = none ∨
         botProcess.map BotProcess.status = some BotStatus.WARNING ∨
         botProcess.map BotProcess.status = some BotStatus.OFFLINE) then
      let m := createLog env m
        { botId := some bot.id, level := some "warning",
          message := "Ping mechanism detected bot offline. Attempting automatic reconnection." }
      let m := (restartBot env m bot.id).2
      createLog env m
        { botId := some bot.id, level := some "success",
          message := "Bot successfully reconnected by auto-recovery system." }
    else m
  let m :=
    if botProcess.map BotProcess.status = some BotStatus.ONLINE ∧ bot.isRunning = false then
      let m := updateBotStatus m bot.id .ONLINE
      let m := updateBotMetrics m bot.id { isRunning := some true }
      createLog env m
        { botId := some bot.id, level := some "info",
          message := "Ping mechanism corrected bot status to online." }
    else m
  match botProcess with
  | some p =>
      if p.hasDiscordClient ∧ p.status = BotStatus.ONLINE ∧ env.wsPing bot.id = -1 then
        (restartBot env m bot.id).2
      else m
  | none => m

end BotManager

/-- Dashboard subscriber connection: its `readyState` and whether its
`send` completes without throwing. -/
structure Subscriber where
  readyState : Nat
  sendOk : Bool
deriving DecidableEq, Repr

/-- The `ws` library constant `WebSocket.OPEN`. -/
def wsOPEN : Nat := 1

/-- Observable outcome of one `sendStatusUpdateToClient` call: whether a
send was attempted on the socket, whether the payload was delivered,
and the snapshot payload (all bot records plus latest metrics). -/
structure SendOutcome where
  attempted : Bool
  delivered : Bool
  payloadBots : List Bot
  payloadMetrics : Option Metric
deriving DecidableEq, Repr

/-- `BotManager.sendStatusUpdateToClient`: reads the snapshot and calls
`ws.send` unconditionally — there is no `readyState` check in this
method (unlike `broadcastError`); a throwing send is caught locally and
only logged to the console. Delivery succeeds exactly when the socket
is open and its send does not fail. -/
def sendStatusUpdateToClient (s : MemStorage) (ws : Subscriber) : SendOutcome :=
  { attempted := true
    delivered := (ws.readyState == wsOPEN) && ws.sendOk
    payloadBots := s.getAllBots
    payloadMetrics := s.getLatestMetrics }

/-- `BotManager.broadcastUpdate`: iterate the client set, invoking
`sendStatusUpdateToClient` independently per client. -/
def broadcastUpdate (s : MemStorage) (clients : List Subscriber) : List SendOutcome :=
  clients.map (sendStatusUpdateToClient s)

/-- `BotManager.broadcastError`: this sibling method does check
`client.readyState === WebSocket.OPEN` before sending. -/
def broadcastError (clients : List Subscriber) : List SendOutcome :=
  clients.map fun ws =>
    if ws.readyState = wsOPEN then
      { attempted := true, delivered := ws.sendOk,
        payloadBots := [], payloadMetrics := none }
    else
      { attempted := false, delivered := false,
        payloadBots := [], payloadMetrics := none }

/-! Generic lemmas about the JS-style bounded histories and maps. -/

/-- Trimming a history to its most recent `cap` entries never leaves
more than `cap` entries. -/
theorem trim_length_le {α : Type} (cap : Nat) (ls : List α) :
    (if ls.length > cap then ls.drop (ls.length - cap) else ls).length ≤ cap := by
  split
  · simp only [List.length_drop]
    omega
  · omega

/-- The trimmed history is a suffix of the untrimmed one: only the
oldest entries are evicted. -/
theorem trim_suffix {α : Type} (cap : Nat) (ls : List α) :
    (if ls.length > cap then ls.drop (ls.length - cap) else ls) <:+ ls := by
  split
  · exact List.drop_suffix _ _
  · exact List.suffix_refl ls

/-- Trimming a history that ends in `x` keeps `x` as the last entry as
long as the cap is positive. -/
theorem trim_getLast?_concat {α : Type} (cap : Nat) (hcap : 0 < cap)
    (xs : List α) (x : α) :
    (if (xs ++ [x]).length > cap then
       (xs ++ [x]).drop ((xs ++ [x]).length - cap)
     else xs ++ [x]).getLast? = some x := by
  split
  · rename_i h
    rw [List.drop_append_of_le_length, List.getLast?_concat]
    simp only [List.length_append, List.length_cons, List.length_nil] at h ⊢
    omega
  · exact List.getLast?_concat xs

/-- Lookup misses when the key is absent from the key list. -/
theorem mapFind?_eq_none_of_not_mem {α : Type} {l : List (Nat × α)} {k : Nat}
    (h : k ∉ l.map Prod.fst) : mapFind? l k = none := by
  induction l with
  | nil => rfl
  | cons e rest ih =>
      obtain ⟨k', v'⟩ := e
      simp only [List.map_cons, List.mem_cons] at h
      push_neg at h
      simp only [mapFind?, if_neg (fun he : k' = k => h.1 he.symm)]
      exact ih h.2

/-- Setting a key makes it found with the new value. -/
theorem mapFind?_mapSet_self {α : Type} (l : List (Nat × α)) (k : Nat) (v : α) :
    mapFind? (mapSet l k v) k = some v := by
  induction l with
  | nil => simp [mapSet, mapFind?]
  | cons e rest ih =>
      by_cases he : e.1 = k
      · simp [mapSet, he, mapFind?]
      · simp [mapSet, he, mapFind?, ih]

/-- Every key of the map after a `set` is an old key or the set key. -/
theorem mem_keys_mapSet {α : Type} {l : List (Nat × α)} {k a : Nat} {v : α}
    (h : a ∈ (mapSet l k v).map Prod.fst) : a ∈ l.map Prod.fst ∨ a = k := by
  induction l with
  | nil =>
      simp [mapSet] at h
      exact Or.inr h
  | cons e rest ih =>
      by_cases he : e.1 = k
      · simp only [mapSet, if_pos he, List.map_cons, List.mem_cons] at h
        rcases h with h | h
        · exact Or.inr h
        · exact Or.inl (by simp [h])
      · simp only [mapSet, if_neg he, List.map_cons, List.mem_cons] at h
        rcases h with h | h
        · exact Or.inl (by simp [h])
        · rcases ih h with h' | h'
          · exact Or.inl (by simp [h'])
          · exact Or.inr h'

/-- JS `Map.set` preserves distinctness of keys. -/
theorem nodupKeys_mapSet {α : Type} {l : List (Nat × α)} (k : Nat) (v : α)
    (h : (l.map Prod.fst).Nodup) : ((mapSet l k v).map Prod.fst).Nodup := by
  induction l with
  | nil => simp [mapSet]
  | cons e rest ih =>
      simp only [List.map_cons, List.nodup_cons] at h
      by_cases he : e.1 = k
      · simp only [mapSet, if_pos he, List.map_cons, List.nodup_cons]
        exact ⟨he ▸ h.1, h.2⟩
      · simp only [mapSet, if_neg he, List.map_cons, List.nodup_cons]
        refine ⟨fun hmem => ?_, ih h.2⟩
        rcases mem_keys_mapSet hmem with h' | h'
        · exact h.1 h'
        · exact he h'

/-- The key list after a `delete` is a sublist of the old key list. -/
theorem keys_mapDelete_sublist {α : Type} (l : List (Nat × α)) (k : Nat) :
    ((mapDelete l k).map Prod.fst).Sublist (l.map Prod.fst) := by
  induction l with
  | nil => simp [mapDelete]
  | cons e rest ih =>
      by_cases he : e.1 = k
      · simp only [mapDelete, if_pos he, List.map_cons]
        exact (List.sublist_cons_self _ _)
      · simp only [mapDelete, if_neg he, List.map_cons]
        exact ih.cons₂ e.1

/-- JS `Map.delete` preserves distinctness of keys. -/
theorem nodupKeys_mapDelete {α : Type} {l : List (Nat × α)} (k : Nat)
    (h : (l.map Prod.fst).Nodup) : ((mapDelete l k).map Prod.fst).Nodup :=
  h.sublist (keys_mapDelete_sublist l k)

/-- Deleting a key removes it entirely when keys are distinct. -/
theorem mapFind?_mapDelete_self {α : Type} {l : List (Nat × α)} (k : Nat)
    (h : (l.map Prod.fst).Nodup) : mapFind? (mapDelete l k) k = none := by
  induction l with
  | nil => rfl
  | cons e rest ih =>
      obtain ⟨k', v'⟩ := e
      simp only [List.map_cons, List.nodup_cons] at h
      by_cases he : k' = k
      · simp only [mapDelete, if_pos he]
        exact mapFind?_eq_none_of_not_mem (he ▸ h.1)
      · simp only [mapDelete, if_neg he, mapFind?, if_neg he]
        exact ih h.2

/-- With distinct keys, at most one entry of the list carries any given
key. -/
theorem countP_keys_le_one {α : Type} {l : List (Nat × α)} (k : Nat)
    (h : (l.map Prod.fst).Nodup) : l.countP (fun e => e.1 == k) ≤ 1 := by
  induction l with
  | nil => simp
  | cons e rest ih =>
      simp only [List.map_cons, List.nodup_cons] at h
      by_cases he : e.1 = k
      · have hz : rest.countP (fun e => e.1 == k) = 0 := by
          rw [List.countP_eq_zero]
          intro a ha hk
          exact h.1 (by
            have : a.1 = k := by simpa using hk
            rw [← he] at this
            exact this ▸ List.mem_map_of_mem Prod.fst ha)
        simp [List.countP_cons, he, hz]
      · simp only [List.countP_cons]
        have : (fun e => e.1 == k) e = false := by simpa using he
        simp [this]
        exact ih h.2

/-! Shared concrete fixtures for witnesses and counterexamples: a
deterministic environment, a storage state holding one sample bot, and
an idle manager. -/

/-- Sample persisted bot record (shaped like the seeded records of
`MemStorage.initializeDefaultData`). -/
def botA : Bot :=
  { id := 1
    name := "Moderation Bot"
    token := "placeholder-token"
    userId := 2
    isRunning := false
    memory := 0
    uptime := 0
    serverCount := 0
    commandCount := 0
    botType := some "MODERATION"
    iconType := some "shield"
    status := "OFFLINE"
    permissions := "1099511627775"
    inviteConfig := "" }

/-- Sample storage containing only `botA`. -/
def stoA : MemStorage :=
  { bots := [(1, botA)]
    logs := []
    metricsHistory := []
    botCurrentId := 2
    logCurrentId := 1
    metricsCurrentId := 1 }

/-- Idle manager over `stoA`: no handles, no connections created. -/
def mgrA : BotManager :=
  { storage := stoA
    botProcesses := []
    connectionsCreated := 0
    createdLogs := [] }

/-- Benign environment: logins and destroys succeed, ping healthy. -/
def envA : Env :=
  { loginOk := fun _ => true
    destroyOk := fun _ => true
    wsPing := fun _ => 42
    now := 5 }

/-- Running variant of the sample bot. -/
def botB : Bot :=
  { botA with isRunning := true, status := "ONLINE" }

/-- Storage containing the running sample bot. -/
def stoB : MemStorage :=
  { stoA with bots := [(1, botB)] }

/-- Live handle for the sample bot, with a Discord client attached. -/
def procB : BotProcess :=
  { botId := 1
    hasDiscordClient := true
    status := .ONLINE
    startTime := some 0
    pid := some 1
    memory := some 100 }

/-- Manager holding the live handle for the running sample bot. -/
def mgrB : BotManager :=
  { storage := stoB
    botProcesses := [(1, procB)]
    connectionsCreated := 0
    createdLogs := [] }

/-- Environment whose `destroy()` calls reject. -/
def envBad : Env :=
  { loginOk := fun _ => true
    destroyOk := fun _ => false
    wsPing := fun _ => 42
    now := 9 }

/-- Projection: `createLog` leaves the handle map untouched. -/
theorem createLog_botProcesses (env : Env) (m : BotManager) (l : InsertLog) :
    (BotManager.createLog env m l).botProcesses = m.botProcesses := rfl

/-- Projection: `createLog` leaves the ghost connection counter
untouched. -/
theorem createLog_connectionsCreated (env : Env) (m : BotManager) (l : InsertLog) :
    (BotManager.createLog env m l).connectionsCreated = m.connectionsCreated := rfl

/-- Projection: `createLog` leaves the persisted bot map untouched. -/
theorem createLog_storage_bots (env : Env) (m : BotManager) (l : InsertLog) :
    (BotManager.createLog env m l).storage.bots = m.storage.bots := rfl

/-- Projection: `createLog` appends exactly the entry built by
`storage.createLog` to the ghost trace. -/
theorem createLog_createdLogs (env : Env) (m : BotManager) (l : InsertLog) :
    (BotManager.createLog env m l).createdLogs
      = m.createdLogs ++ [(m.storage.createLog l env.now).1] := rfl

/-- Projection: `updateBotStatus` only touches the storage layer. -/
theorem updateBotStatus_botProcesses (m : BotManager) (botId : Nat) (st : BotStatus) :
    (BotManager.updateBotStatus m botId st).botProcesses = m.botProcesses := rfl

/-- Projection: `updateBotMetrics` only touches the storage layer. -/
theorem updateBotMetrics_botProcesses (m : BotManager) (botId : Nat)
    (p : MemStorage.BotPatch) :
    (BotManager.updateBotMetrics m botId p).botProcesses = m.botProcesses := rfl

/-- Persisting a status patch rewrites exactly the status field of the
stored record (or does nothing when the record is absent). -/
theorem getBot_updateBot_status (s : MemStorage) (id : Nat) (st : String) :
    ((s.updateBot id { status := some st }).2).getBot id
      = (s.getBot id).map (fun b => { b with status := st }) := by
  rcases hgb : mapFind? s.bots id with _ | bot
  · simp [MemStorage.updateBot, hgb, MemStorage.getBot]
  · simp [MemStorage.updateBot, hgb, MemStorage.getBot, mapFind?_mapSet_self,
      MemStorage.applyPatch]

/-- Projection: `createLog` leaves persisted bot lookups untouched. -/
theorem createLog_getBot (env : Env) (m : BotManager) (l : InsertLog) (id : Nat) :
    (BotManager.createLog env m l).storage.getBot id = m.storage.getBot id := rfl

/-- Projection: `updateBotStatus` keeps the ghost counters. -/
theorem updateBotStatus_connectionsCreated (m : BotManager) (botId : Nat)
    (st : BotStatus) :
    (BotManager.updateBotStatus m botId st).connectionsCreated
      = m.connectionsCreated := rfl

/-- Projection: `updateBotStatus` keeps the ghost log trace. -/
theorem updateBotStatus_createdLogs (m : BotManager) (botId : Nat) (st : BotStatus) :
    (BotManager.updateBotStatus m botId st).createdLogs = m.createdLogs := rfl

/-- Projection: `updateBotMetrics` keeps the ghost counters. -/
theorem updateBotMetrics_connectionsCreated (m : BotManager) (botId : Nat)
    (p : MemStorage.BotPatch) :
    (BotManager.updateBotMetrics m botId p).connectionsCreated
      = m.connectionsCreated := rfl

/-- Projection: `updateBotMetrics` keeps the ghost log trace. -/
theorem updateBotMetrics_createdLogs (m : BotManager) (botId : Nat)
    (p : MemStorage.BotPatch) :
    (BotManager.updateBotMetrics m botId p).createdLogs = m.createdLogs := rfl

/-- Persisting an `isRunning` patch rewrites exactly that field of the
stored record. -/
theorem getBot_updateBot_isRunning (s : MemStorage) (id : Nat) :
    ((s.updateBot id { isRunning := some true }).2).getBot id
      = (s.getBot id).map (fun b => { b with isRunning := true }) := by
  rcases hgb : mapFind? s.bots id with _ | bot
  · simp [MemStorage.updateBot, hgb, MemStorage.getBot]
  · simp [MemStorage.updateBot, hgb, MemStorage.getBot, mapFind?_mapSet_self,
      MemStorage.applyPatch]

/-- Claim C4, counterexample — with a handle whose `destroy()` rejects,
`stopBot` does not remove the handle and does not persist OFFLINE: the
catch skips the removal, returns `false`, and the persisted record
keeps its prior ONLINE status. -/
theorem stopBot_destroy_error_keeps_handle :
    (BotManager.stopBot envBad mgrB 1).1 = false
    ∧ mapFind? (BotManager.stopBot envBad mgrB 1).2.botProcesses 1 = some procB
    ∧ (BotManager.stopBot envBad mgrB 1).2.storage.getBot 1 = some botB
    ∧ botB.status = "ONLINE" := by
  decide

/-- Claim C4, amended — for a bot with a handle, `stopBot` removes the
handle and persists status OFFLINE when the handle has no client or its
`destroy()` resolves; when `destroy()` rejects, the error is caught and
logged but the removal and the OFFLINE update are skipped: the handle
stays in the map, persisted records are untouched, and `false` is
returned. -/
theorem stopBot_with_handle (env : Env) (m : BotManager) (botId : Nat)
    (p : BotProcess)
    (hfind : mapFind? m.botProcesses botId = some p)
    (hnodup : (m.botProcesses.map Prod.fst).Nodup) :
    (p.hasDiscordClient = true ∧ env.destroyOk botId = false →
        (BotManager.stopBot env m botId).1 = false
        ∧ (BotManager.stopBot env m botId).2.botProcesses = m.botProcesses
        ∧ (BotManager.stopBot env m botId).2.storage.bots = m.storage.bots
        ∧ ∃ lg, (BotManager.stopBot env m botId).2.createdLogs
              = m.createdLogs ++ [lg] ∧ lg.level = "error")
    ∧ ((p.hasDiscordClient = true → env.destroyOk botId = true) →
        (BotManager.stopBot env m botId).1 = true
        ∧ mapFind? (BotManager.stopBot env m botId).2.botProcesses botId = none
        ∧ (BotManager.stopBot env m botId).2.storage.getBot botId
            = (m.storage.getBot botId).map (fun b => { b with status := "OFFLINE" })) := by
  constructor
  · rintro ⟨hc, hd⟩
    have hcond : p.hasDiscordClient = true ∧ env.destroyOk botId = false := ⟨hc, hd⟩
    simp only [BotManager.stopBot, hfind, if_pos hcond]
    exact ⟨trivial, rfl, rfl, ⟨_, rfl, rfl⟩⟩
  · intro h2
    have hcond : ¬(p.hasDiscordClient = true ∧ env.destroyOk botId = false) := by
      rintro ⟨hc, hd⟩
      rw [h2 hc] at hd
      exact Bool.noConfusion hd
    simp only [BotManager.stopBot, hfind, if_neg hcond]
    refine ⟨trivial, ?_, ?_⟩
    · rw [updateBotStatus_botProcesses]
      exact mapFind?_mapDelete_self botId hnodup
    · exact getBot_updateBot_status _ botId "OFFLINE"

/-- Witness for the amended C4 in the success branch: stopping the
running sample bot with a resolving `destroy()` removes the handle and
persists OFFLINE. -/
theorem stopBot_with_handle_witness :
    (procB.hasDiscordClient = true → envA.destroyOk 1 = true) ∧
      ((BotManager.stopBot envA mgrB 1).1 = true
        ∧ mapFind? (BotManager.stopBot envA mgrB 1).2.botProcesses 1 = none
        ∧ (BotManager.stopBot envA mgrB 1).2.storage.getBot 1
            = (mgrB.storage.getBot 1).map (fun b => { b with status := "OFFLINE" })) :=
  ⟨fun _ => rfl,
   (stopBot_with_handle envA mgrB 1 procB (by decide) (by decide)).2 (fun _ => rfl)⟩

/-- Manager holding a live ONLINE handle for bot 1 while the persisted
record (`botA`) says `isRunning = false`: the drift scenario of the
ping mechanism's correction rule. -/
def mgrC : BotManager :=
  { storage := stoA
    botProcesses := [(1, procB)]
    connectionsCreated := 0
    createdLogs := [] }

/-- Environment whose gateway ping reads the unreachable sentinel -1. -/
def envUnhealthy : Env :=
  { loginOk := fun _ => true
    destroyOk := fun _ => true
    wsPing := fun _ => -1
    now := 11 }

/-- Claim C8, counterexample — a tick that finds a handle ONLINE with
persisted `isRunning = false` does not always leave the handle and its
connection untouched: when the captured handle also has a client whose
ping reads the sentinel -1, the health rule of the same tick restarts
the bot, constructing a new client connection. -/
theorem pingStep_unhealthy_restarts :
    botA.isRunning = false
    ∧ procB.status = BotStatus.ONLINE
    ∧ mapFind? mgrC.botProcesses 1 = some procB
    ∧ (BotManager.pingMechanismStep envUnhealthy mgrC botA).connectionsCreated
        = mgrC.connectionsCreated + 1 := by
  decide

/-- Claim C8, amended — when a tick finds the captured handle ONLINE
while the persisted record says `isRunning = false`, and the handle is
not simultaneously flagged unhealthy (it has no client, or its ping is
not the sentinel -1), the persisted record is corrected to
running/ONLINE and an info-level correction is logged, while the handle
map and the connections are left untouched. -/
theorem pingStep_corrects_persisted (env : Env) (m : BotManager) (bot : Bot)
    (p : BotProcess)
    (hproc : mapFind? m.botProcesses bot.id = some p)
    (hon : p.status = BotStatus.ONLINE)
    (hrun : bot.isRunning = false)
    (hhealthy : p.hasDiscordClient = false ∨ env.wsPing bot.id ≠ -1) :
    (BotManager.pingMechanismStep env m bot).botProcesses = m.botProcesses
    ∧ (BotManager.pingMechanismStep env m bot).connectionsCreated
        = m.connectionsCreated
    ∧ (BotManager.pingMechanismStep env m bot).storage.getBot bot.id
        = (m.storage.getBot bot.id).map
            (fun b => { b with isRunning := true, status := "ONLINE" })
    ∧ ∃ lg, (BotManager.pingMechanismStep env m bot).createdLogs
          = m.createdLogs ++ [lg]
        ∧ lg.level = "info"
        ∧ lg.message = "Ping mechanism corrected bot status to online." := by
  have hstep : BotManager.pingMechanismStep env m bot
      = BotManager.createLog env
          (BotManager.updateBotMetrics
            (BotManager.updateBotStatus m bot.id .ONLINE) bot.id
            { isRunning := some true })
          { botId := some bot.id, level := some "info",
            message := "Ping mechanism corrected bot status to online." } := by
    have hcond3 : ¬(p.hasDiscordClient = true ∧ p.status = BotStatus.ONLINE
        ∧ env.wsPing bot.id = -1) := by
      rcases hhealthy with hc | hping
      · rintro ⟨h3, -, -⟩
        rw [hc] at h3
        exact Bool.noConfusion h3
      · rintro ⟨-, -, h3⟩
        exact hping h3
    simp only [BotManager.pingMechanismStep, hproc, hrun, hon]
    simp
    have hA : ¬(p.hasDiscordClient = true ∧ env.wsPing bot.id = -1) := by
      rintro ⟨hc, hping⟩
      exact hcond3 ⟨hc, hon, hping⟩
    rw [if_neg hA, if_pos hon]
  rw [hstep]
  refine ⟨rfl, rfl, ?_, ⟨_, rfl, rfl, rfl⟩⟩
  rw [createLog_getBot]
  show ((BotManager.updateBotStatus m bot.id .ONLINE).storage.updateBot bot.id
      { isRunning := some true }).2.getBot bot.id = _
  rw [getBot_updateBot_isRunning]
  show ((m.storage.updateBot bot.id { status := some "ONLINE" }).2.getBot bot.id).map _ = _
  rw [getBot_updateBot_status]
  rcases m.storage.getBot bot.id with _ | b
  · rfl
  · rfl

/-- Witness for the amended C8: in the drift fixture with a healthy
ping, the tick corrects the persisted record and leaves the handle map
alone. -/
theorem pingStep_corrects_persisted_witness :
    (BotManager.pingMechanismStep envA mgrC botA).botProcesses = mgrC.botProcesses
    ∧ (BotManager.pingMechanismStep envA mgrC botA).connectionsCreated
        = mgrC.connectionsCreated
    ∧ (BotManager.pingMechanismStep envA mgrC botA).storage.getBot 1
        = (mgrC.storage.getBot 1).map
            (fun b => { b with isRunning := true, status := "ONLINE" })
    ∧ ∃ lg, (BotManager.pingMechanismStep envA mgrC botA).createdLogs
          = mgrC.createdLogs ++ [lg]
        ∧ lg.level = "info"
        ∧ lg.message = "Ping mechanism corrected bot status to online." := by
  have h := pingStep_corrects_persisted envA mgrC botA procB (by decide) (by decide)
    (by decide) (by right; decide)
  simpa using h

/-- Claim C6 — when the persisted record is absent or its credential
token is falsy, `startBot` returns `false`, creates an error-level log
entry saying the token was not found, registers no handle, and
constructs no connection; nothing is thrown (the model is total and the
failure surfaces only as the boolean). -/
theorem startBot_token_missing (env : Env) (m : BotManager) (botId : Nat)
    (h : m.storage.getBot botId = none
        ∨ ∃ b, m.storage.getBot botId = some b ∧ b.token = "") :
    (BotManager.startBot env m botId).1 = false
    ∧ (∃ lg, (BotManager.startBot env m botId).2.createdLogs = m.createdLogs ++ [lg]
        ∧ lg.level = "error" ∧ lg.message = "Bot token not found")
    ∧ (BotManager.startBot env m botId).2.botProcesses = m.botProcesses
    ∧ (BotManager.startBot env m botId).2.connectionsCreated
        = m.connectionsCreated := by
  rcases h with hget | ⟨b, hget, htok⟩
  · have herr : (BotManager.startBot env m botId).2.createdLogs
        = m.createdLogs ++ [(m.storage.createLog
            { botId := some botId, level := some "error", message := "Bot token not found" }
            env.now).1] := by
      simp [BotManager.startBot, hget, createLog_createdLogs]
    refine ⟨?_, ⟨_, herr, (by decide : strOrDefault (some "error") "info" = "error"), rfl⟩,
      ?_, ?_⟩
    · simp [BotManager.startBot, hget]
    · simp [BotManager.startBot, hget, createLog_botProcesses]
    · simp [BotManager.startBot, hget, createLog_connectionsCreated]
  · have herr : (BotManager.startBot env m botId).2.createdLogs
        = m.createdLogs ++ [(m.storage.createLog
            { botId := some botId, level := some "error", message := "Bot token not found" }
            env.now).1] := by
      simp [BotManager.startBot, hget, htok, createLog_createdLogs]
    refine ⟨?_, ⟨_, herr, (by decide : strOrDefault (some "error") "info" = "error"), rfl⟩,
      ?_, ?_⟩
    · simp [BotManager.startBot, hget, htok]
    · simp [BotManager.startBot, hget, htok, createLog_botProcesses]
    · simp [BotManager.startBot, hget, htok, createLog_connectionsCreated]

/-- Witness for C6 at an identifier with no persisted record. -/
theorem startBot_token_missing_witness :
    (mgrA.storage.getBot 9 = none
        ∨ ∃ b, mgrA.storage.getBot 9 = some b ∧ b.token = "")
    ∧ ((BotManager.startBot envA mgrA 9).1 = false
      ∧ (∃ lg, (BotManager.startBot envA mgrA 9).2.createdLogs
            = mgrA.createdLogs ++ [lg]
          ∧ lg.level = "error" ∧ lg.message = "Bot token not found")
      ∧ (BotManager.startBot envA mgrA 9).2.botProcesses = mgrA.botProcesses
      ∧ (BotManager.startBot envA mgrA 9).2.connectionsCreated
          = mgrA.connectionsCreated) :=
  ⟨Or.inl (by decide), startBot_token_missing envA mgrA 9 (Or.inl (by decide))⟩

/-- Claim C7 — for every bot identifier with no handle in the map,
`stopBot` returns `false` and leaves the whole manager state (handle
map, persisted records, log history) unchanged. -/
theorem stopBot_no_handle_noop (env : Env) (m : BotManager) (botId : Nat)
    (h : mapFind? m.botProcesses botId = none) :
    BotManager.stopBot env m botId = (false, m) := by
  simp [BotManager.stopBot, h]

/-- Witness for C7 at `botId = 9` in the idle manager. -/
theorem stopBot_no_handle_noop_witness :
    mapFind? mgrA.botProcesses 9 = none ∧
      BotManager.stopBot envA mgrA 9 = (false, mgrA) :=
  ⟨by decide, stopBot_no_handle_noop envA mgrA 9 (by decide)⟩

/-- Key distinctness of the handle map survives `stopBot`. -/
theorem nodupKeys_stopBot (env : Env) (m : BotManager) (botId : Nat)
    (h : (m.botProcesses.map Prod.fst).Nodup) :
    (((BotManager.stopBot env m botId).2.botProcesses).map Prod.fst).Nodup := by
  rcases hfind : mapFind? m.botProcesses botId with _ | p
  · simpa [BotManager.stopBot, hfind] using h
  · by_cases hc : p.hasDiscordClient = true ∧ env.destroyOk botId = false
    · simpa [BotManager.stopBot, hfind, if_pos hc, createLog_botProcesses] using h
    · simp only [BotManager.stopBot, hfind, if_neg hc, updateBotStatus_botProcesses]
      exact nodupKeys_mapDelete botId h

/-- Key distinctness of the handle map survives `startBot`. -/
theorem nodupKeys_startBot (env : Env) (m : BotManager) (botId : Nat)
    (h : (m.botProcesses.map Prod.fst).Nodup) :
    (((BotManager.startBot env m botId).2.botProcesses).map Prod.fst).Nodup := by
  rcases hget : m.storage.getBot botId with _ | botData
  · simpa [BotManager.startBot, hget, createLog_botProcesses] using h
  · by_cases htok : botData.token = ""
    · simpa [BotManager.startBot, hget, htok, createLog_botProcesses] using h
    · by_cases hhas : (mapFind? m.botProcesses botId).isSome
      · simpa [BotManager.startBot, hget, htok, hhas, createLog_botProcesses] using h
      · by_cases hlogin : env.loginOk botId = true
        · simp only [BotManager.startBot, hget, htok, hhas, hlogin]
          simpa using nodupKeys_mapSet botId _ h
        · simpa [BotManager.startBot, hget, htok, hhas, hlogin,
            createLog_botProcesses] using h

/-- Key distinctness of the handle map survives `restartBot`. -/
theorem nodupKeys_restartBot (env : Env) (m : BotManager) (botId : Nat)
    (h : (m.botProcesses.map Prod.fst).Nodup) :
    (((BotManager.restartBot env m botId).2.botProcesses).map Prod.fst).Nodup :=
  nodupKeys_startBot env _ botId (nodupKeys_stopBot env m botId h)

/-- Claim C3 — from any handle map with distinct keys (always true of a
JS `Map`), whether a handle for the id existed before and whatever the
outcomes of `destroy()` and `login`, after `restartBot` the handle map
holds at most one entry for the id. -/
theorem restartBot_at_most_one_handle (env : Env) (m : BotManager) (botId : Nat)
    (h : (m.botProcesses.map Prod.fst).Nodup) :
    (BotManager.restartBot env m botId).2.botProcesses.countP
        (fun e => e.1 == botId) ≤ 1 :=
  countP_keys_le_one botId (nodupKeys_restartBot env m botId h)

/-- Witness for C3: restarting the running sample bot leaves at most
one handle for it. -/
theorem restartBot_at_most_one_handle_witness :
    (BotManager.restartBot envA mgrB 1).2.botProcesses.countP
        (fun e => e.1 == 1) ≤ 1 :=
  restartBot_at_most_one_handle envA mgrB 1 (by decide)

/-- Claim C2 — if a `startBot` call returned `true` (so a handle for
the id is in the map), a second `startBot` without an intervening stop
also returns `true`, constructs no second client connection, and leaves
the handle map exactly as it was (the second environment is arbitrary:
the second call never reaches `login`). -/
theorem startBot_idempotent (env env2 : Env) (m : BotManager) (botId : Nat)
    (h1 : (BotManager.startBot env m botId).1 = true) :
    (BotManager.startBot env2 (BotManager.startBot env m botId).2 botId).1 = true
    ∧ (BotManager.startBot env2 (BotManager.startBot env m botId).2 botId).2.botProcesses
        = (BotManager.startBot env m botId).2.botProcesses
    ∧ (BotManager.startBot env2 (BotManager.startBot env m botId).2 botId).2.connectionsCreated
        = (BotManager.startBot env m botId).2.connectionsCreated
    ∧ (mapFind? (BotManager.startBot env m botId).2.botProcesses botId).isSome := by
  rcases hget : m.storage.getBot botId with _ | botData
  · exact absurd h1 (by simp [BotManager.startBot, hget])
  · by_cases htok : botData.token = ""
    · exact absurd h1 (by simp [BotManager.startBot, hget, htok])
    · by_cases hhas : (mapFind? m.botProcesses botId).isSome
      · simp [BotManager.startBot, hget, htok, hhas, createLog_getBot,
          createLog_botProcesses, createLog_connectionsCreated]
      · by_cases hlogin : env.loginOk botId = true
        · simp [BotManager.startBot, hget, htok, hhas, hlogin, createLog_getBot,
            createLog_botProcesses, createLog_connectionsCreated,
            mapFind?_mapSet_self]
        · exact absurd h1 (by simp [BotManager.startBot, hget, htok, hhas, hlogin])

/-- Witness for C2: starting the sample bot from the idle manager
succeeds, and the second call is an idempotent no-op. -/
theorem startBot_idempotent_witness :
    (BotManager.startBot envA mgrA 1).1 = true ∧
      ((BotManager.startBot envA (BotManager.startBot envA mgrA 1).2 1).1 = true
      ∧ (BotManager.startBot envA (BotManager.startBot envA mgrA 1).2 1).2.botProcesses
          = (BotManager.startBot envA mgrA 1).2.botProcesses
      ∧ (BotManager.startBot envA (BotManager.startBot envA mgrA 1).2 1).2.connectionsCreated
          = (BotManager.startBot envA mgrA 1).2.connectionsCreated
      ∧ (mapFind? (BotManager.startBot envA mgrA 1).2.botProcesses 1).isSome) :=
  ⟨by decide, startBot_idempotent envA envA mgrA 1 (by decide)⟩

/-- From a state with no handle for the id, `startBot` either registers
a handle with status ONLINE (token present and login resolves), or logs
an error-level entry (missing record, falsy token, or login rejection)
— there is no path that does neither. -/
theorem startBot_online_or_error (env : Env) (m : BotManager) (botId : Nat)
    (hnoproc : mapFind? m.botProcesses botId = none) :
    (∃ p, mapFind? (BotManager.startBot env m botId).2.botProcesses botId = some p
        ∧ p.status = BotStatus.ONLINE)
    ∨ (∃ lg, (BotManager.startBot env m botId).2.createdLogs = m.createdLogs ++ [lg]
        ∧ lg.level = "error") := by
  rcases hget : m.storage.getBot botId with _ | b
  · have herr : (BotManager.startBot env m botId).2.createdLogs
        = m.createdLogs ++ [(m.storage.createLog
            { botId := some botId, level := some "error", message := "Bot token not found" }
            env.now).1] := by
      simp [BotManager.startBot, hget, createLog_createdLogs]
    exact Or.inr ⟨_, herr, (by decide : strOrDefault (some "error") "info" = "error")⟩
  · by_cases htok : b.token = ""
    · have herr : (BotManager.startBot env m botId).2.createdLogs
          = m.createdLogs ++ [(m.storage.createLog
              { botId := some botId, level := some "error", message := "Bot token not found" }
              env.now).1] := by
        simp [BotManager.startBot, hget, htok, createLog_createdLogs]
      exact Or.inr ⟨_, herr, (by decide : strOrDefault (some "error") "info" = "error")⟩
    · by_cases hlogin : env.loginOk botId = true
      · have hproc : mapFind? (BotManager.startBot env m botId).2.botProcesses botId
            = some { botId := botId, hasDiscordClient := true, status := BotStatus.ONLINE,
                     startTime := some env.now, pid := some 1, memory := some 100 } := by
          simp [BotManager.startBot, hget, htok, hnoproc, hlogin, mapFind?_mapSet_self]
        exact Or.inl ⟨_, hproc, rfl⟩
      · have herr : (BotManager.startBot env m botId).2.createdLogs
            = m.createdLogs ++ [(m.storage.createLog
                { botId := some botId, level := some "error",
                  message := "Failed to start: Unknown error" }
                env.now).1] := by
          simp [BotManager.startBot, hget, htok, hnoproc, hlogin, createLog_createdLogs]
        exact Or.inr ⟨_, herr, (by decide : strOrDefault (some "error") "info" = "error")⟩

/-- Manager state for the recovery scenario: the persisted record says
running but no handle is in memory. -/
def mgrD : BotManager :=
  { storage := stoB
    botProcesses := []
    connectionsCreated := 0
    createdLogs := [] }

/-- Claim C1 — a reconciliation tick that finds a persisted record with
`isRunning = true` and no in-memory handle ends with either a handle
registered with status ONLINE or a freshly created error-level log
entry; it is never a silent no-op. -/
theorem pingStep_no_silent_noop (env : Env) (m : BotManager) (bot : Bot)
    (hget : m.storage.getBot bot.id = some bot)
    (hrun : bot.isRunning = true)
    (hnoproc : mapFind? m.botProcesses bot.id = none) :
    (∃ p, mapFind? (BotManager.pingMechanismStep env m bot).botProcesses bot.id
        = some p ∧ p.status = BotStatus.ONLINE)
    ∨ (∃ lg, lg ∈ (BotManager.pingMechanismStep env m bot).createdLogs.drop
          m.createdLogs.length ∧ lg.level = "error") := by
  have hm1proc : ∀ (l : InsertLog),
      mapFind? (BotManager.createLog env m l).botProcesses bot.id = none := by
    intro l
    rw [createLog_botProcesses]
    exact hnoproc
  have hstop3 : ∀ (l : InsertLog),
      (BotManager.stopBot env (BotManager.createLog env m l) bot.id).2
        = BotManager.createLog env m l := by
    intro l
    simp [BotManager.stopBot, createLog_botProcesses, hnoproc]
  have key : ∀ (lw ls : InsertLog),
      (∃ p, mapFind? (BotManager.createLog env
          (BotManager.startBot env (BotManager.createLog env m lw) bot.id).2
          ls).botProcesses bot.id = some p ∧ p.status = BotStatus.ONLINE)
      ∨ (∃ lg, lg ∈ (BotManager.createLog env
          (BotManager.startBot env (BotManager.createLog env m lw) bot.id).2
          ls).createdLogs.drop m.createdLogs.length ∧ lg.level = "error") := by
    intro lw ls
    rcases startBot_online_or_error env (BotManager.createLog env m lw) bot.id
        (hm1proc lw) with ⟨p, hp, hon⟩ | ⟨lg, hlg, hlv⟩
    · exact Or.inl ⟨p, by rw [createLog_botProcesses]; exact hp, hon⟩
    · refine Or.inr ⟨lg, ?_, hlv⟩
      rw [createLog_createdLogs, hlg, createLog_createdLogs]
      simp [List.drop_left]
  have hstep : BotManager.pingMechanismStep env m bot
      = BotManager.createLog env
          (BotManager.startBot env
            (BotManager.createLog env m
              { botId := some bot.id, level := some "warning",
                message := "Ping mechanism detected bot offline. Attempting automatic reconnection." })
            bot.id).2
          { botId := some bot.id, level := some "success",
            message := "Bot successfully reconnected by auto-recovery system." } := by
    simp only [BotManager.pingMechanismStep, hnoproc, hrun, BotManager.restartBot]
    simp only [hstop3]
    simp
  rw [hstep]
  exact key _ _

/-- Witness for C1: in the fixture with a running persisted record and
no handle, the benign environment yields a handle with status ONLINE
after the tick. -/
theorem pingStep_no_silent_noop_witness :
    (∃ p, mapFind? (BotManager.pingMechanismStep envA mgrD botB).botProcesses 1
        = some p ∧ p.status = BotStatus.ONLINE)
    ∨ (∃ lg, lg ∈ (BotManager.pingMechanismStep envA mgrD botB).createdLogs.drop
          mgrD.createdLogs.length ∧ lg.level = "error") :=
  pingStep_no_silent_noop envA mgrD botB (by decide) (by decide) (by decide)

/-- Claim C5, counterexample — `broadcastUpdate` does not skip
subscribers whose `readyState` is not open: `sendStatusUpdateToClient`
has no readyState check, so a send is attempted on a CLOSED (state 3)
subscriber as well. -/
theorem broadcastUpdate_attempts_closed_subscriber :
    (⟨3, true⟩ : Subscriber).readyState ≠ wsOPEN
    ∧ (broadcastUpdate stoA [⟨3, true⟩]).map SendOutcome.attempted = [true] := by
  decide

/-- Claim C5, amended — `broadcastUpdate` attempts a send to every
subscriber, open or not (there is no readyState check on this path,
unlike `broadcastError`); the outcome for each subscriber is a function
of that subscriber alone, so every open subscriber whose own send does
not throw receives the full snapshot (all bot records plus the latest
metric sample) regardless of any other subscriber's failure. -/
theorem broadcastUpdate_per_subscriber (s : MemStorage)
    (clients : List Subscriber) (c : Subscriber) (i : Nat)
    (hc : clients[i]? = some c) :
    (broadcastUpdate s clients)[i]? = some (sendStatusUpdateToClient s c)
    ∧ (sendStatusUpdateToClient s c).attempted = true
    ∧ (c.readyState = wsOPEN ∧ c.sendOk = true →
        (sendStatusUpdateToClient s c).delivered = true)
    ∧ (sendStatusUpdateToClient s c).payloadBots = s.getAllBots
    ∧ (sendStatusUpdateToClient s c).payloadMetrics = s.getLatestMetrics := by
  refine ⟨?_, rfl, ?_, rfl, rfl⟩
  · simp [broadcastUpdate, List.getElem?_map, hc]
  · rintro ⟨h1, h2⟩
    simp [sendStatusUpdateToClient, h1, h2]

/-- Witness for the amended C5: a two-subscriber set in which the first
subscriber's send throws while the second is open and healthy — the
second still receives the snapshot. -/
theorem broadcastUpdate_per_subscriber_witness :
    ([⟨1, false⟩, ⟨1, true⟩] : List Subscriber)[1]? = some ⟨1, true⟩
    ∧ ((broadcastUpdate stoA [⟨1, false⟩, ⟨1, true⟩])[1]?
          = some (sendStatusUpdateToClient stoA ⟨1, true⟩)
      ∧ (sendStatusUpdateToClient stoA ⟨1, true⟩).attempted = true
      ∧ ((⟨1, true⟩ : Subscriber).readyState = wsOPEN
            ∧ (⟨1, true⟩ : Subscriber).sendOk = true →
          (sendStatusUpdateToClient stoA ⟨1, true⟩).delivered = true)
      ∧ (sendStatusUpdateToClient stoA ⟨1, true⟩).payloadBots = stoA.getAllBots
      ∧ (sendStatusUpdateToClient stoA ⟨1, true⟩).payloadMetrics
          = stoA.getLatestMetrics) :=
  ⟨by decide,
   broadcastUpdate_per_subscriber stoA [⟨1, false⟩, ⟨1, true⟩] ⟨1, true⟩ 1 (by decide)⟩

/-- Claim C9 — after any `createLog` the stored log history holds at
most 1000 entries and after any `createMetrics` the stored metrics
history holds at most 100 samples; in both cases the stored history is
a suffix of the old history extended by the new record, so only the
oldest entries are evicted. This holds for each call from any state,
hence after every call of any call sequence. -/
theorem history_retention_caps (s : MemStorage) (l : InsertLog)
    (im : InsertMetric) (now : Nat) :
    (s.createLog l now).2.logs.length ≤ 1000
    ∧ (s.createLog l now).2.logs <:+ s.logs ++ [(s.createLog l now).1]
    ∧ (s.createMetrics im now).2.metricsHistory.length ≤ 100
    ∧ (s.createMetrics im now).2.metricsHistory
        <:+ s.metricsHistory ++ [(s.createMetrics im now).1] :=
  ⟨trim_length_le 1000 (s.logs ++ [(s.createLog l now).1]),
   trim_suffix 1000 (s.logs ++ [(s.createLog l now).1]),
   trim_length_le 100 (s.metricsHistory ++ [(s.createMetrics im now).1]),
   trim_suffix 100 (s.metricsHistory ++ [(s.createMetrics im now).1])⟩

/-- Claim C10, counterexample — the record returned by `createMetrics`
does not carry the input's field values verbatim: the `x || null`
coercion turns the legitimate sample value 0 into null. Here the input
sample has `cpuUsage = 0` but the stored/returned record has
`cpuUsage = null`. -/
theorem createMetrics_zero_field_lost :
    (⟨some 0, some 10, some 20, some 0, some 0, some 0⟩ : InsertMetric).cpuUsage
        = some 0
    ∧ (stoA.createMetrics ⟨some 0, some 10, some 20, some 0, some 0, some 0⟩ 7).1.cpuUsage
        ≠ (⟨some 0, some 10, some 20, some 0, some 0, some 0⟩ : InsertMetric).cpuUsage := by
  decide

/-- Claim C10, amended — immediately after `createMetrics m` returns a
record `r`, `getLatestMetrics` returns that same record `r`; `r`
carries `m`'s field values through the falsy coercion `x || null`, so
zero-valued or absent fields are stored as null. -/
theorem createMetrics_getLatestMetrics_roundtrip (s : MemStorage)
    (im : InsertMetric) (now : Nat) :
    (s.createMetrics im now).2.getLatestMetrics = some (s.createMetrics im now).1
    ∧ (s.createMetrics im now).1.cpuUsage = numOrNull im.cpuUsage
    ∧ (s.createMetrics im now).1.memoryUsage = numOrNull im.memoryUsage
    ∧ (s.createMetrics im now).1.memoryTotal = numOrNull im.memoryTotal
    ∧ (s.createMetrics im now).1.diskUsage = numOrNull im.diskUsage
    ∧ (s.createMetrics im now).1.diskTotal = numOrNull im.diskTotal
    ∧ (s.createMetrics im now).1.networkUsage = numOrNull im.networkUsage := by
  refine ⟨?_, rfl, rfl, rfl, rfl, rfl, rfl⟩
  have hlast := trim_getLast?_concat 100 (by omega) s.metricsHistory
    (s.createMetrics im now).1
  show MemStorage.getLatestMetrics _ = _
  rw [MemStorage.getLatestMetrics]
  have hhist : (s.createMetrics im now).2.metricsHistory =
      (if (s.metricsHistory ++ [(s.createMetrics im now).1]).length > 100 then
        (s.metricsHistory ++ [(s.createMetrics im now).1]).drop
          ((s.metricsHistory ++ [(s.createMetrics im now).1]).length - 100)
      else s.metricsHistory ++ [(s.createMetrics im now).1]) := rfl
  rw [hhist, hlast]
  rcases hempty : (if (s.metricsHistory ++ [(s.createMetrics im now).1]).length > 100 then
      (s.metricsHistory ++ [(s.createMetrics im now).1]).drop
        ((s.metricsHistory ++ [(s.createMetrics im now).1]).length - 100)
    else s.metricsHistory ++ [(s.createMetrics im now).1]) with _ | ⟨a, tl⟩
  · rw [hempty] at hlast
    simp at hlast
  · simp

end Website
